import Mathlib

/-!
# pci_list.cpp: a shallow embedding

The program walks `/sys/bus/pci/devices/`, and for every device directory
prints vendor/device identifiers, the header type, the six base address
registers (BARs) and the interrupt line and pin.

The embedding keeps the control flow of `list_pci_devices` statement by
statement.  The file system is an explicit input (`DirEntry`), the two output
streams are an explicit list of `Event`s, and the exceptions thrown by
`std::stoi` / `std::stoull` (which nothing in the program catches) are an
explicit `thrown` field of the resulting `Trace`.

Machine integers are natural numbers / integers with explicit reductions:
`unsigned long long` is `Nat` below `2^64`, `int` is `Int`, and conversions
between them are written out (`to_ull`, `to_ushort`, `to_uchar`, `to_uint`).
-/

namespace PciList

/-! ## Machine integers -/

/-- Bitwise complement of an `int`: in two's complement `~x` is `-x - 1`. -/
def int_not (x : Int) : Int := -x - 1

/-- Conversion of an `int` to `unsigned long long`: reduction modulo `2^64`. -/
def to_ull (x : Int) : Nat := (x % (2 ^ 64 : Int)).toNat

/-- Conversion of an `int` to `unsigned int`: reduction modulo `2^32`. -/
def to_uint (x : Int) : Nat := (x % (2 ^ 32 : Int)).toNat

/-- Conversion of an `int` to `unsigned short`: reduction modulo `2^16`. -/
def to_ushort (x : Int) : Nat := (x % (2 ^ 16 : Int)).toNat

/-- Conversion of an `int` to `unsigned char`: reduction modulo `2^8`. -/
def to_uchar (x : Int) : Nat := (x % (2 ^ 8 : Int)).toNat

/-! ## Library: `std::stoi`, `std::stoull`, `std::getline`, stream formatting -/

/-- Exceptions of the string conversions. -/
inductive Exn where
  | invalid_argument
  | out_of_range
  deriving DecidableEq, Repr

/-- The white space skipped by `strtol` (the "C" locale `isspace`). -/
def isspace (c : Char) : Bool :=
  c == ' ' || c == '\t' || c == '\n' || c == '\x0b' || c == '\x0c' || c == '\r'

/-- Value of a character as a digit, letters standing for 10..35. -/
def digit_value (c : Char) : Option Nat :=
  if '0'.toNat ≤ c.toNat ∧ c.toNat ≤ '9'.toNat then some (c.toNat - '0'.toNat)
  else if 'a'.toNat ≤ c.toNat ∧ c.toNat ≤ 'z'.toNat then some (c.toNat - 'a'.toNat + 10)
  else if 'A'.toNat ≤ c.toNat ∧ c.toNat ≤ 'Z'.toNat then some (c.toNat - 'A'.toNat + 10)
  else none

/-- The digits of the longest prefix of `cs` made of digits of the base. -/
def take_digits (base : Nat) : List Char → List Nat
  | [] => []
  | c :: cs =>
    match digit_value c with
    | some d => if d < base then d :: take_digits base cs else []
    | none => []

/-- Value of a digit sequence, most significant digit first. -/
def digits_value (base : Nat) (ds : List Nat) : Nat :=
  ds.foldl (fun acc d => acc * base + d) 0

/-- Removes an optional sign; the flag says whether it was `-`. -/
def take_sign : List Char → Bool × List Char
  | '-' :: cs => (true, cs)
  | '+' :: cs => (false, cs)
  | cs => (false, cs)

/-- Removes an optional `0x` / `0X` (base 16 only); the flag says whether one
was removed. -/
def take_hex_marker (base : Nat) : List Char → Bool × List Char
  | '0' :: x :: cs =>
    if base = 16 ∧ (x = 'x' ∨ x = 'X') then (true, cs) else (false, '0' :: x :: cs)
  | cs => (false, cs)

/-- The common scanner of `strtol` / `strtoull`: leading white space, an
optional sign, an optional `0x` in base 16, then as many digits as there are.
Text after the digits is ignored.  The result is the sign and the magnitude;
`none` when no conversion could be performed.  A `0x` that is not followed by
a hexadecimal digit converts the `0` alone. -/
def strto_scan (base : Nat) (s : List Char) : Option (Bool × Nat) :=
  let signed := take_sign (s.dropWhile isspace)
  let body := take_hex_marker base signed.2
  match take_digits base body.2 with
  | [] => if body.1 then some (signed.1, 0) else none
  | d :: ds => some (signed.1, digits_value base (d :: ds))

/-- Model of `std::stoi(str, nullptr, base)`: `invalid_argument` when no
conversion can be performed, `out_of_range` when the value is not an `int`. -/
def stoi (str : String) (base : Nat) : Except Exn Int :=
  match strto_scan base str.toList with
  | none => .error .invalid_argument
  | some (neg, m) =>
    let v : Int := if neg then -(m : Int) else (m : Int)
    if -(2 ^ 31 : Int) ≤ v ∧ v ≤ 2 ^ 31 - 1 then .ok v else .error .out_of_range

/-- Model of `std::stoull(str, nullptr, base)`: `invalid_argument` when no
conversion can be performed, `out_of_range` when the magnitude does not fit
64 bits; a leading `-` negates modulo `2^64`. -/
def stoull (str : String) (base : Nat) : Except Exn Nat :=
  match strto_scan base str.toList with
  | none => .error .invalid_argument
  | some (neg, m) =>
    if 2 ^ 64 ≤ m then .error .out_of_range
    else .ok (if neg then (2 ^ 64 - m) % 2 ^ 64 else m)

/-- Model of `std::getline(stream, str)` on a freshly opened file: the text
up to the first newline. -/
def getline (content : String) : String :=
  String.mk (content.toList.takeWhile (fun c => c != '\n'))

/-- Digits of an unsigned value written to a stream in `std::hex` mode. -/
def hex (n : Nat) : String := String.mk (Nat.toDigits 16 n)

/-- Digits of an unsigned value written to a stream in decimal mode. -/
def dec (n : Nat) : String := String.mk (Nat.toDigits 10 n)

/-- The effect of `std::setw(width) << std::setfill(fill)` on the next item. -/
def setw_fill (width : Nat) (fill : Char) (s : String) : String :=
  String.mk (List.replicate (width - s.length) fill) ++ s

/-! ## Input and output -/

/-- One write to `std::cout` (`out`) or `std::cerr` (`err`); one event per
line of text. -/
inductive Event where
  | out (text : String)
  | err (text : String)
  deriving DecidableEq, Repr

/-- What a run has written, and the exception that ended it (if any):
the program has no handler, so a thrown exception terminates it. -/
structure Trace where
  events : List Event
  thrown : Option Exn
  deriving DecidableEq, Repr

/-- A run that writes `es` and goes on. -/
def say (es : List Event) : Trace := ⟨es, none⟩

/-- A run that throws `e`. -/
def raise (e : Exn) : Trace := ⟨[], some e⟩

/-- Sequential composition: `b` runs only if `a` did not throw. -/
def Trace.andThen (a b : Trace) : Trace :=
  match a.thrown with
  | some e => ⟨a.events, some e⟩
  | none => ⟨a.events ++ b.events, b.thrown⟩

/-- A text file of a device directory, as `fs::exists` and `std::ifstream`
see it. -/
inductive TextFile where
  | missing
  | unopenable
  | content (text : String)
  deriving DecidableEq, Repr

/-- The binary `config` file of a device directory. -/
inductive BinFile where
  | missing
  | unopenable
  | content (bytes : List Nat)
  deriving DecidableEq, Repr

/-- One entry of `/sys/bus/pci/devices/`. -/
structure DirEntry where
  name : String
  is_directory : Bool
  vendor : TextFile
  device : TextFile
  header_type : TextFile
  resource : Nat → TextFile
  irq : TextFile
  config : BinFile

/-- One row of `PciVenTable` (declared in `pci.h`). -/
structure VendorEntry where
  VendorId : Nat
  VendorName : String
  deriving DecidableEq, Repr

/-! ## The program -/

/-- Embedding of `find_vendor_name`; the table of `pci.h` is a parameter. -/
def find_vendor_name (PciVenTable : List VendorEntry) (vendor_id : Nat) : String :=
  match PciVenTable with
  | [] => "Unknown Vendor"
  | entry :: rest =>
    if entry.VendorId = vendor_id then entry.VendorName
    else find_vendor_name rest vendor_id

/-- The constant `pci_path`. -/
def pci_path : String := "/sys/bus/pci/devices/"

/-- The test `(header_type & 0x7F) == 0`. -/
def is_non_bridge (header_type : Nat) : Bool := (header_type &&& 0x7F) == 0

/-- The address printed for an I/O BAR: `bar_value & ~0x3`, the `int` mask
being converted to `unsigned long long`. -/
def io_address (bar_value : Nat) : Nat := bar_value &&& to_ull (int_not 0x3)

/-- The address printed for a memory BAR: `bar_value & ~0xF`. -/
def mem_address (bar_value : Nat) : Nat := bar_value &&& to_ull (int_not 0xF)

/-- The `if (bar_value != 0) ... else ...` statement of the BAR loop.  The
stream is in `std::hex` mode, so `bar_index` and the values are written in
hexadecimal. -/
def decode_bar (bar_index : Nat) (bar_value : Nat) : List Event :=
  if bar_value ≠ 0 then
    Event.out ("  BAR" ++ hex bar_index ++ ": 0x" ++ hex bar_value ++ "\n") ::
      (if bar_value &&& 1 ≠ 0 then
        [Event.out "    Type: I/O Space\n",
         Event.out ("    Address: 0x" ++ hex (io_address bar_value) ++ "\n")]
      else
        [Event.out "    Type: Memory Space\n",
         (if bar_value &&& 0x8 ≠ 0 then Event.out "    Prefetchable: Yes\n"
          else Event.out "    Prefetchable: No\n"),
         Event.out ("    Address: 0x" ++ hex (mem_address bar_value) ++ "\n")])
  else
    [Event.out ("  BAR" ++ hex bar_index ++ " value is 0 (no resource allocated)\n")]

/-- One iteration of the BAR loop. -/
def read_bar (device_path : String) (bar_index : Nat) (bar_file : TextFile) : Trace :=
  match bar_file with
  | .missing =>
    say [Event.err ("  BAR file resource" ++ dec bar_index ++ " does not exist for "
      ++ device_path ++ "\n")]
  | .unopenable =>
    say [Event.err ("  Failed to read BAR" ++ dec bar_index ++ " for " ++ device_path ++ "\n")]
  | .content text =>
    let bar_value_str := getline text
    if bar_value_str = "" then say []
    else
      match stoull bar_value_str 16 with
      | .error e => raise e
      | .ok bar_value =>
        say (Event.out ("  Reading BAR" ++ hex bar_index ++ ": " ++ bar_value_str
              ++ " (parsed as 0x" ++ hex bar_value ++ ")\n") :: decode_bar bar_index bar_value)

/-- The loop `for (int bar_index = 0; bar_index < 6; ++bar_index)`, run from
`bar_index` for `count` more iterations. -/
def read_bars (device_path : String) (resource : Nat → TextFile) : Nat → Nat → Trace
  | 0, _ => say []
  | count + 1, bar_index =>
    (read_bar device_path bar_index (resource bar_index)).andThen
      (read_bars device_path resource count (bar_index + 1))

/-- The two lines written for a parsed `irq_value`.  The stream is still in
`std::hex` mode, in which an `int` is written as the hexadecimal digits of
its 32-bit two's complement pattern. -/
def describe_irq (irq_value : Int) : List Event :=
  [Event.out ("  Interrupt Line: " ++ hex (to_uint irq_value) ++ "\n"),
   (if irq_value = 0 then Event.out "    Interrupt not assigned or disabled.\n"
    else Event.out ("    Interrupt assigned to line: " ++ hex (to_uint irq_value) ++ "\n"))]

/-- The interrupt line block. -/
def read_irq (device_path : String) (irq_file : TextFile) : Trace :=
  match irq_file with
  | .missing => say [Event.err ("  IRQ file does not exist for " ++ device_path ++ "\n")]
  | .unopenable => say [Event.err ("  Failed to read IRQ info for " ++ device_path ++ "\n")]
  | .content text =>
    let irq_value_str := getline text
    if irq_value_str = "" then say []
    else
      match stoi irq_value_str 10 with
      | .error e => raise e
      | .ok irq_value => say (describe_irq irq_value)

/-- The letter computed by `char pin_letter = 'A' + (interrupt_pin - 1)` under
the guard `interrupt_pin > 0 && interrupt_pin <= 4`. -/
def pin_letter (interrupt_pin : Nat) : Option Char :=
  if interrupt_pin > 0 ∧ interrupt_pin ≤ 4 then
    some (Char.ofNat (to_uchar (('A'.toNat : Int) + ((interrupt_pin : Int) - 1))))
  else none

/-- The line written for the interrupt pin byte. -/
def describe_pin (interrupt_pin : Nat) : List Event :=
  match pin_letter interrupt_pin with
  | some c => [Event.out ("  Interrupt Pin: INTA#" ++ String.singleton c ++ "\n")]
  | none => [Event.out "  Interrupt Pin: Not used or invalid value\n"]

/-- The interrupt pin block: the byte at offset `0x3D` of `config`, or the
initial `0` when the file is shorter. -/
def read_pin (device_path : String) (config_file : BinFile) : Trace :=
  match config_file with
  | .missing => say [Event.err ("  Config file does not exist for " ++ device_path ++ "\n")]
  | .unopenable =>
    say [Event.err ("  Failed to read Interrupt Pin from config file for " ++ device_path ++ "\n")]
  | .content bytes => say (describe_pin (bytes.getD 0x3D 0 % 256))

/-- The header type block: `0` unless the file has a non-empty first line. -/
def read_header_type (header_type_file : TextFile) : Except Exn Nat :=
  match header_type_file with
  | .content text =>
    let header_type_str := getline text
    if header_type_str = "" then .ok 0
    else
      match stoi header_type_str 16 with
      | .error e => .error e
      | .ok v => .ok (to_uchar v)
  | _ => .ok 0

/-- The header line, `(int)header_type` written with `setw(2)`, `setfill('0')`. -/
def header_line (header_type : Nat) (kind : String) : Event :=
  Event.out ("  Header Type: 0x" ++ setw_fill 2 '0' (hex header_type) ++ kind ++ "\n")

/-- Everything after the manufacturer line for one device. -/
def report_header (device_path : String) (d : DirEntry) : Trace :=
  match read_header_type d.header_type with
  | .error e => raise e
  | .ok header_type =>
    (if is_non_bridge header_type then
      (say [header_line header_type " (Non-Bridge Device)"]).andThen
        ((read_bars device_path d.resource 6 0).andThen
          ((read_irq device_path d.irq).andThen (read_pin device_path d.config)))
    else
      say [header_line header_type " (Bridge Device)"]).andThen
    (say [Event.out "\n"])

/-- The four identification lines. -/
def identity_lines (PciVenTable : List VendorEntry) (device_address : String)
    (vendor_id device_id : Nat) : List Event :=
  [Event.out ("Address: " ++ device_address ++ "\n"),
   Event.out ("  Vendor ID: 0x" ++ setw_fill 4 '0' (hex vendor_id) ++ "\n"),
   Event.out ("  Device ID: 0x" ++ setw_fill 4 '0' (hex device_id) ++ "\n"),
   Event.out ("  Manufacturer: " ++ find_vendor_name PciVenTable vendor_id ++ "\n")]

/-- The body of the directory loop for an entry that is a directory. -/
def report_device (PciVenTable : List VendorEntry) (d : DirEntry) : Trace :=
  let device_path := pci_path ++ d.name
  match d.vendor, d.device with
  | .missing, _ => say [Event.err ("Missing vendor or device file for " ++ device_path ++ "\n")]
  | _, .missing => say [Event.err ("Missing vendor or device file for " ++ device_path ++ "\n")]
  | .unopenable, _ =>
    say [Event.err ("Failed to open vendor or device file for " ++ device_path ++ "\n")]
  | _, .unopenable =>
    say [Event.err ("Failed to open vendor or device file for " ++ device_path ++ "\n")]
  | .content vendor_text, .content device_text =>
    let vendor_id_str := getline vendor_text
    let device_id_str := getline device_text
    if vendor_id_str = "" ∨ device_id_str = "" then
      say [Event.err ("Failed to read valid vendor/device info for " ++ device_path ++ "\n")]
    else
      match stoi vendor_id_str 16 with
      | .error e => raise e
      | .ok v =>
        match stoi device_id_str 16 with
        | .error e => raise e
        | .ok dv =>
          (say (identity_lines PciVenTable d.name (to_ushort v) (to_ushort dv))).andThen
            (report_header device_path d)

/-- The directory loop. -/
def report_entries (PciVenTable : List VendorEntry) : List DirEntry → Trace
  | [] => say []
  | entry :: rest =>
    (if entry.is_directory then report_device PciVenTable entry else say []).andThen
      (report_entries PciVenTable rest)

/-- Embedding of `list_pci_devices`: `none` stands for a missing
`/sys/bus/pci/devices/`. -/
def list_pci_devices (PciVenTable : List VendorEntry) (sysfs : Option (List DirEntry)) : Trace :=
  match sysfs with
  | none =>
    say [Event.err
      "PCI path does not exist. Ensure you have access to /sys/bus/pci/devices/\n"]
  | some entries => report_entries PciVenTable entries

/-! ## Sample inputs -/

/-- A two-entry vendor table. -/
def sample_table : List VendorEntry :=
  [⟨0x8086, "Intel Corporation"⟩, ⟨0x10DE, "NVIDIA Corporation"⟩]

/-- A bridge (header type `0x81`) that has resource, irq and config files. -/
def bridge_device : DirEntry :=
  { name := "0000:00:1c.0", is_directory := true, vendor := .content "0x8086\n",
    device := .content "0x9d10\n", header_type := .content "0x81\n",
    resource := fun _ => .content "0x00000000e0000000\n", irq := .content "11\n",
    config := .content (List.replicate 0x3D 0 ++ [1]) }

/-- A non-bridge device with one memory BAR, interrupt line 11 and pin 3. -/
def endpoint_device : DirEntry :=
  { name := "0000:00:02.0", is_directory := true, vendor := .content "0x8086\n",
    device := .content "0x1237\n", header_type := .content "0x80\n",
    resource := fun i => if i = 0 then .content "00000000c0000004\n" else .missing,
    irq := .content "11\n", config := .content (List.replicate 0x3D 0 ++ [3]) }

/-- A table with a row that carries the fallback text as its name. -/
def sentinel_table : List VendorEntry := [⟨0x1234, "Unknown Vendor"⟩]

/-- Writing first, then running `b`. -/
theorem say_andThen (es : List Event) (b : Trace) :
    (say es).andThen b = ⟨es ++ b.events, b.thrown⟩ := rfl

/-- The first event of a sequence is the first event of its first part. -/
theorem andThen_head (a b : Trace) (e : Event) (h : a.events.head? = some e) :
    (a.andThen b).events.head? = some e := by
  unfold Trace.andThen
  cases ht : a.thrown with
  | some x => simpa using h
  | none =>
    cases hev : a.events with
    | nil => rw [hev] at h; simp at h
    | cons x xs => rw [hev] at h; simpa using h

/-- A device whose vendor and device texts parse: the identification lines,
then the header block. -/
theorem report_device_parsed (tbl : List VendorEntry) (d : DirEntry) (vt dt : String)
    (v dv : Int) (hvendor : d.vendor = .content vt) (hdevice : d.device = .content dt)
    (hvne : getline vt ≠ "") (hdne : getline dt ≠ "")
    (hv : stoi (getline vt) 16 = .ok v) (hdv : stoi (getline dt) 16 = .ok dv) :
    report_device tbl d
      = (say (identity_lines tbl d.name (to_ushort v) (to_ushort dv))).andThen
          (report_header (pci_path ++ d.name) d) := by
  unfold report_device
  simp only [hvendor, hdevice, hvne, hdne, hv, hdv, or_self, if_false]

/-- The mask `~m` of an `int` with `m + 1` a power of two, seen as an
`unsigned long long`, is `2^64 - 2^k`. -/
theorem to_ull_int_not_low (k : Nat) (hk : k ≤ 64) :
    to_ull (int_not ((2 ^ k - 1 : Nat) : Int)) = 2 ^ 64 - 2 ^ k := by
  have hpos : 1 ≤ 2 ^ k := Nat.one_le_two_pow
  have hle : 2 ^ k ≤ 2 ^ 64 := Nat.pow_le_pow_right (by norm_num) hk
  have h1 : int_not ((2 ^ k - 1 : Nat) : Int) = -((2 ^ k : Nat) : Int) := by
    unfold int_not
    rw [Nat.cast_sub hpos]
    push_cast
    ring
  rw [h1]
  unfold to_ull
  have h2 : (-((2 ^ k : Nat) : Int)) % (2 ^ 64 : Int) = ((2 ^ 64 - 2 ^ k : Nat) : Int) := by
    have hle2 : ((2 ^ k : Nat) : Int) ≤ 18446744073709551616 := by exact_mod_cast hle
    have hpos2 : (1 : Int) ≤ ((2 ^ k : Nat) : Int) := by exact_mod_cast hpos
    rw [Nat.cast_sub hle]
    generalize ((2 ^ k : Nat) : Int) = x at hle2 hpos2 ⊢
    norm_num
    omega
  rw [h2]
  exact Int.toNat_ofNat _

/-- Masking a 64-bit value with `2^64 - 2^k` clears exactly the low `k` bits. -/
theorem land_high_mask (k : Nat) (hk : k ≤ 64) (v : Nat) (hv : v < 2 ^ 64) :
    v &&& (2 ^ 64 - 2 ^ k) = v - v % 2 ^ k := by
  have hpos : 1 ≤ 2 ^ k := Nat.one_le_two_pow
  have hle : 2 ^ k ≤ 2 ^ 64 := Nat.pow_le_pow_right (by norm_num) hk
  have hm : 2 ^ 64 - 2 ^ k = 2 ^ 64 - ((2 ^ k - 1) + 1) := by omega
  have hx : 2 ^ k - 1 < 2 ^ 64 := by omega
  have hs : v - v % 2 ^ k = (v >>> k) <<< k := by
    rw [Nat.shiftLeft_eq, Nat.shiftRight_eq_div_pow]
    have := Nat.div_add_mod v (2 ^ k)
    rw [Nat.mul_comm] at this
    omega
  rw [hs, hm]
  apply Nat.eq_of_testBit_eq
  intro i
  rw [Nat.testBit_and, Nat.testBit_two_pow_sub_succ hx, Nat.testBit_two_pow_sub_one,
    Nat.testBit_shiftLeft, Nat.testBit_shiftRight]
  by_cases h1 : i < k
  · have h2 : ¬ i ≥ k := by omega
    simp [h1, h2]
  · have h2 : i ≥ k := by omega
    have h3 : k + (i - k) = i := by omega
    by_cases h4 : i < 64
    · simp [h1, h2, h3, h4]
    · have h5 : v.testBit i = false :=
        Nat.testBit_lt_two_pow (lt_of_lt_of_le hv (Nat.pow_le_pow_right (by norm_num) (by omega)))
      simp [h1, h2, h3, h4, h5]

/-- The I/O address is the value with its low two bits cleared. -/
theorem io_address_eq (v : Nat) (hv : v < 2 ^ 64) : io_address v = v - v % 4 := by
  have h := to_ull_int_not_low 2 (by norm_num)
  have h3 : ((2 ^ 2 - 1 : Nat) : Int) = 0x3 := by norm_num
  rw [h3] at h
  unfold io_address
  rw [h]
  exact land_high_mask 2 (by norm_num) v hv

/-- The memory address is the value with its low four bits cleared. -/
theorem mem_address_eq (v : Nat) (hv : v < 2 ^ 64) : mem_address v = v - v % 16 := by
  have h := to_ull_int_not_low 4 (by norm_num)
  have h3 : ((2 ^ 4 - 1 : Nat) : Int) = 0xF := by norm_num
  rw [h3] at h
  unfold mem_address
  rw [h]
  exact land_high_mask 4 (by norm_num) v hv

/-- Bits of a value with its low `k` bits cleared. -/
theorem testBit_clear_low (k v i : Nat) :
    (v - v % 2 ^ k).testBit i = (v.testBit i && decide (k ≤ i)) := by
  have hs : v - v % 2 ^ k = (v >>> k) <<< k := by
    rw [Nat.shiftLeft_eq, Nat.shiftRight_eq_div_pow]
    have := Nat.div_add_mod v (2 ^ k)
    rw [Nat.mul_comm] at this
    omega
  rw [hs, Nat.testBit_shiftLeft, Nat.testBit_shiftRight]
  by_cases h : k ≤ i
  · have h3 : k + (i - k) = i := by omega
    simp [h, h3]
  · simp [h]

/-- The test `bar_value & 0x8` reads bit 3. -/
theorem land_eight (v : Nat) : v &&& 0x8 = if v.testBit 3 then 8 else 0 := by
  apply Nat.eq_of_testBit_eq
  intro i
  have h8 : (0x8 : Nat) = 2 ^ 3 := by norm_num
  rw [Nat.testBit_and, h8, Nat.testBit_two_pow]
  by_cases h : 3 = i
  · subst h
    cases hb : v.testBit 3
    · simp
    · simp
      decide
  · cases hb : v.testBit 3
    · simp [h]
    · simp only [h, decide_False, Bool.and_false, if_true]
      rw [Nat.testBit_two_pow]
      simp [h]

/-- Bit 3 in the spec's notation `(v >> 3) & 1 == 1`. -/
theorem testBit_three (v : Nat) : v.testBit 3 = true ↔ (v >>> 3) &&& 1 = 1 := by
  rw [Nat.testBit_to_div_mod, Nat.and_one_is_mod, Nat.shiftRight_eq_div_pow]
  simp

/-! ## C1 - C3: BAR decoding -/

/-- C1: a 64-bit BAR value with bit 0 set is reported as I/O Space, with the
address `v & 0xFFFFFFFFFFFFFFFC`: exactly the low two bits are cleared, and
the upper 32 bits are those of `v` (the `int` mask `~0x3` is sign-extended). -/
theorem C1_io_bar (bar_index v : Nat) (hv : v < 2 ^ 64) (hbit : v &&& 1 = 1) :
    decode_bar bar_index v =
      [Event.out ("  BAR" ++ hex bar_index ++ ": 0x" ++ hex v ++ "\n"),
       Event.out "    Type: I/O Space\n",
       Event.out ("    Address: 0x" ++ hex (v &&& 0xFFFFFFFFFFFFFFFC) ++ "\n")]
    ∧ io_address v = v &&& 0xFFFFFFFFFFFFFFFC
    ∧ (∀ i, (io_address v).testBit i = (v.testBit i && decide (2 ≤ i)))
    ∧ io_address v / 2 ^ 32 = v / 2 ^ 32 := by
  have hmask : io_address v = v &&& 0xFFFFFFFFFFFFFFFC := by
    unfold io_address
    have : to_ull (int_not 0x3) = 0xFFFFFFFFFFFFFFFC := by decide
    rw [this]
  have hval := io_address_eq v hv
  have hne : v ≠ 0 := by
    rintro rfl
    simp at hbit
  refine ⟨?_, hmask, ?_, ?_⟩
  · unfold decode_bar
    rw [if_pos hne, if_pos (by rw [hbit]; decide), hmask]
  · intro i
    rw [hval]
    exact testBit_clear_low 2 v i
  · rw [hval]
    omega

/-- C1 at the I/O BAR `0xFFFFFFFF0000E003`. -/
theorem C1_io_bar_witness :
    decode_bar 1 0xFFFFFFFF0000E003 =
      [Event.out ("  BAR" ++ hex 1 ++ ": 0x" ++ hex 0xFFFFFFFF0000E003 ++ "\n"),
       Event.out "    Type: I/O Space\n",
       Event.out ("    Address: 0x" ++ hex (0xFFFFFFFF0000E003 &&& 0xFFFFFFFFFFFFFFFC) ++ "\n")]
    ∧ io_address 0xFFFFFFFF0000E003 = 0xFFFFFFFF0000E003 &&& 0xFFFFFFFFFFFFFFFC
    ∧ (∀ i, (io_address 0xFFFFFFFF0000E003).testBit i
        = (Nat.testBit 0xFFFFFFFF0000E003 i && decide (2 ≤ i)))
    ∧ io_address 0xFFFFFFFF0000E003 / 2 ^ 32 = 0xFFFFFFFF0000E003 / 2 ^ 32 :=
  C1_io_bar 1 0xFFFFFFFF0000E003 (by norm_num) (by decide)

/-- C2: a non-zero 64-bit BAR value with bit 0 clear is reported as Memory
Space, `Prefetchable: Yes` exactly when bit 3 is set, with the address
`v & 0xFFFFFFFFFFFFFFF0`: exactly the low four bits are cleared. -/
theorem C2_memory_bar (bar_index v : Nat) (hv : v < 2 ^ 64) (hne : v ≠ 0)
    (hbit : v &&& 1 = 0) :
    decode_bar bar_index v =
      [Event.out ("  BAR" ++ hex bar_index ++ ": 0x" ++ hex v ++ "\n"),
       Event.out "    Type: Memory Space\n",
       (if v.testBit 3 = true then Event.out "    Prefetchable: Yes\n"
        else Event.out "    Prefetchable: No\n"),
       Event.out ("    Address: 0x" ++ hex (v &&& 0xFFFFFFFFFFFFFFF0) ++ "\n")]
    ∧ (v.testBit 3 = true ↔ (v >>> 3) &&& 1 = 1)
    ∧ mem_address v = v &&& 0xFFFFFFFFFFFFFFF0
    ∧ (∀ i, (mem_address v).testBit i = (v.testBit i && decide (4 ≤ i))) := by
  have hmask : mem_address v = v &&& 0xFFFFFFFFFFFFFFF0 := by
    unfold mem_address
    have : to_ull (int_not 0xF) = 0xFFFFFFFFFFFFFFF0 := by decide
    rw [this]
  have hval := mem_address_eq v hv
  refine ⟨?_, testBit_three v, hmask, ?_⟩
  · unfold decode_bar
    rw [if_pos hne, if_neg (by rw [hbit]; decide), hmask, land_eight]
    cases hb : v.testBit 3 <;> simp
  · intro i
    rw [hval]
    exact testBit_clear_low 4 v i

/-- C2 at the prefetchable memory BAR `0xC000000C`. -/
theorem C2_memory_bar_witness :
    decode_bar 0 0xC000000C =
      [Event.out ("  BAR" ++ hex 0 ++ ": 0x" ++ hex 0xC000000C ++ "\n"),
       Event.out "    Type: Memory Space\n",
       (if Nat.testBit 0xC000000C 3 = true then Event.out "    Prefetchable: Yes\n"
        else Event.out "    Prefetchable: No\n"),
       Event.out ("    Address: 0x" ++ hex (0xC000000C &&& 0xFFFFFFFFFFFFFFF0) ++ "\n")]
    ∧ (Nat.testBit 0xC000000C 3 = true ↔ (0xC000000C >>> 3) &&& 1 = 1)
    ∧ mem_address 0xC000000C = 0xC000000C &&& 0xFFFFFFFFFFFFFFF0
    ∧ (∀ i, (mem_address 0xC000000C).testBit i
        = (Nat.testBit 0xC000000C i && decide (4 ≤ i))) :=
  C2_memory_bar 0 0xC000000C (by norm_num) (by decide) (by decide)

/-- C3: a BAR value of 0 produces the "no resource allocated" notice and
nothing else; every non-zero value produces a descriptor: the value line, a
type line, for memory a prefetchable line, and an address line.  For a slot
whose text parses to 0 the whole iteration writes the echo of the text and the
notice. -/
theorem C3_zero_bar (bar_index v : Nat) :
    decode_bar bar_index 0 =
      [Event.out ("  BAR" ++ hex bar_index ++ " value is 0 (no resource allocated)\n")]
    ∧ (v ≠ 0 →
        decode_bar bar_index v =
          [Event.out ("  BAR" ++ hex bar_index ++ ": 0x" ++ hex v ++ "\n"),
           Event.out "    Type: I/O Space\n",
           Event.out ("    Address: 0x" ++ hex (io_address v) ++ "\n")]
        ∨ ∃ prefetchable : String,
          decode_bar bar_index v =
            [Event.out ("  BAR" ++ hex bar_index ++ ": 0x" ++ hex v ++ "\n"),
             Event.out "    Type: Memory Space\n",
             Event.out ("    Prefetchable: " ++ prefetchable ++ "\n"),
             Event.out ("    Address: 0x" ++ hex (mem_address v) ++ "\n")])
    ∧ (∀ device_path text : String, getline text ≠ "" → stoull (getline text) 16 = .ok 0 →
        read_bar device_path bar_index (.content text) =
          say [Event.out ("  Reading BAR" ++ hex bar_index ++ ": " ++ getline text
                 ++ " (parsed as 0x" ++ hex 0 ++ ")\n"),
               Event.out ("  BAR" ++ hex bar_index
                 ++ " value is 0 (no resource allocated)\n")]) := by
  have hzero : decode_bar bar_index 0 =
      [Event.out ("  BAR" ++ hex bar_index ++ " value is 0 (no resource allocated)\n")] := by
    simp [decode_bar]
  refine ⟨hzero, ?_, ?_⟩
  swap
  · intro device_path text hne hp
    unfold read_bar
    simp only [hne, hp, if_false, hzero]
  intro hne
  unfold decode_bar
  rw [if_pos hne]
  by_cases h1 : v &&& 1 ≠ 0
  · left
    rw [if_pos h1]
  · right
    rw [if_neg h1]
    by_cases h8 : v &&& 0x8 ≠ 0
    · exact ⟨"Yes", by rw [if_pos h8]; rfl⟩
    · exact ⟨"No", by rw [if_neg h8]; rfl⟩

/-- C3 at slot 2, with the non-zero value `0xE001`. -/
theorem C3_zero_bar_witness :
    decode_bar 2 0 =
      [Event.out ("  BAR" ++ hex 2 ++ " value is 0 (no resource allocated)\n")]
    ∧ (decode_bar 2 0xE001 =
          [Event.out ("  BAR" ++ hex 2 ++ ": 0x" ++ hex 0xE001 ++ "\n"),
           Event.out "    Type: I/O Space\n",
           Event.out ("    Address: 0x" ++ hex (io_address 0xE001) ++ "\n")]
        ∨ ∃ prefetchable : String,
          decode_bar 2 0xE001 =
            [Event.out ("  BAR" ++ hex 2 ++ ": 0x" ++ hex 0xE001 ++ "\n"),
             Event.out "    Type: Memory Space\n",
             Event.out ("    Prefetchable: " ++ prefetchable ++ "\n"),
             Event.out ("    Address: 0x" ++ hex (mem_address 0xE001) ++ "\n")])
    ∧ read_bar "/sys/bus/pci/devices/0000:00:02.0" 2 (.content "0x0000000000000000\n") =
        say [Event.out ("  Reading BAR" ++ hex 2 ++ ": " ++ getline "0x0000000000000000\n"
               ++ " (parsed as 0x" ++ hex 0 ++ ")\n"),
             Event.out ("  BAR" ++ hex 2 ++ " value is 0 (no resource allocated)\n")] :=
  ⟨(C3_zero_bar 2 0xE001).1, (C3_zero_bar 2 0xE001).2.1 (by decide),
   (C3_zero_bar 2 0xE001).2.2 "/sys/bus/pci/devices/0000:00:02.0" "0x0000000000000000\n"
      (by decide) rfl⟩

/-! ## C4: the scenario `00000000c0000004` -/

/-- C4 as stated fails: the text parses to `0xc0000004`, whose bit 3 is clear,
and the report says `Prefetchable: No`. -/
theorem C4_not_prefetchable :
    ¬ (∃ v, stoull "00000000c0000004" 16 = .ok v ∧ v.testBit 0 = false ∧ v.testBit 3 = true
        ∧ Event.out "    Prefetchable: Yes\n" ∈ decode_bar 0 v) := by
  rintro ⟨v, hv, -, h3, -⟩
  have hp : stoull "00000000c0000004" 16 = .ok 0xc0000004 := rfl
  rw [hp] at hv
  injection hv with hv
  subst hv
  revert h3
  decide

/-- C4, amended: the text `00000000c0000004` parses to `0xc0000004`, with
bit 0 = 0 and bit 3 = 0 (bit 2 is the one set); the slot is reported as
Memory Space, `Prefetchable: No`, address `0xc0000000`, the value with its low
four bits cleared. -/
theorem C4_scenario :
    stoull "00000000c0000004" 16 = .ok 0xc0000004
    ∧ Nat.testBit 0xc0000004 0 = false
    ∧ Nat.testBit 0xc0000004 3 = false
    ∧ Nat.testBit 0xc0000004 2 = true
    ∧ mem_address 0xc0000004 = 0xc0000000
    ∧ read_bar "/sys/bus/pci/devices/0000:00:02.0" 0 (.content "00000000c0000004") =
        say [Event.out "  Reading BAR0: 00000000c0000004 (parsed as 0xc0000004)\n",
             Event.out "  BAR0: 0xc0000004\n",
             Event.out "    Type: Memory Space\n",
             Event.out "    Prefetchable: No\n",
             Event.out "    Address: 0xc0000000\n"] := by
  refine ⟨rfl, by decide, by decide, by decide, by decide, by decide⟩

/-! ## C5: header classification -/

/-- The low seven bits do not see bit 7. -/
theorem land_7F_xor_80 (h : Nat) : (h ^^^ 0x80) &&& 0x7F = h &&& 0x7F := by
  apply Nat.eq_of_testBit_eq
  intro i
  have h7 : (0x7F : Nat) = 2 ^ 7 - 1 := by norm_num
  have h8 : (0x80 : Nat) = 2 ^ 7 := by norm_num
  rw [Nat.testBit_and, Nat.testBit_and, Nat.testBit_xor, h7, h8, Nat.testBit_two_pow_sub_one,
    Nat.testBit_two_pow]
  by_cases hi : i < 7
  · have : ¬ 7 = i := by omega
    simp [hi, this]
  · simp [hi]

/-- C5: a header type is Non-Bridge exactly when its low seven bits are zero;
flipping bit 7 never changes the classification; `0x81` is a Bridge and
`0x80` a Non-Bridge; and the header line of the report names the class so
decided. -/
theorem C5_header_classification (h : Nat) (device_path : String) (d : DirEntry)
    (hread : read_header_type d.header_type = .ok h) :
    (is_non_bridge h = true ↔ h &&& 0x7F = 0)
    ∧ is_non_bridge (h ^^^ 0x80) = is_non_bridge h
    ∧ is_non_bridge 0x81 = false
    ∧ is_non_bridge 0x80 = true
    ∧ (report_header device_path d).events.head? =
        some (header_line h (if h &&& 0x7F = 0 then " (Non-Bridge Device)" else " (Bridge Device)")) := by
  refine ⟨by simp [is_non_bridge], ?_, by decide, by decide, ?_⟩
  · unfold is_non_bridge
    rw [land_7F_xor_80]
  · unfold report_header
    rw [hread]
    by_cases hz : h &&& 0x7F = 0
    · have hb : is_non_bridge h = true := by simp [is_non_bridge, hz]
      simp only [hb, hz, if_true]
      exact andThen_head _ _ _ (andThen_head _ _ _ rfl)
    · have hb : is_non_bridge h = false := by simp [is_non_bridge, hz]
      simp only [hb, hz, if_false, Bool.false_eq_true]
      exact andThen_head _ _ _ rfl

/-- C5 at the bridge with header type `0x81`. -/
theorem C5_header_classification_witness :
    (is_non_bridge 0x81 = true ↔ 0x81 &&& 0x7F = 0)
    ∧ is_non_bridge (0x81 ^^^ 0x80) = is_non_bridge 0x81
    ∧ is_non_bridge 0x81 = false
    ∧ is_non_bridge 0x80 = true
    ∧ (report_header "/sys/bus/pci/devices/0000:00:1c.0" bridge_device).events.head? =
        some (header_line 0x81
          (if 0x81 &&& 0x7F = 0 then " (Non-Bridge Device)" else " (Bridge Device)")) :=
  C5_header_classification 0x81 "/sys/bus/pci/devices/0000:00:1c.0" bridge_device rfl

/-! ## C6: interrupt pin -/

/-- C6: the pin bytes 1..4 give the letters `'A' + (b - 1)`, that is A..D;
every other byte gives no letter; the report line follows the same rule. -/
theorem C6_interrupt_pin (b : Nat) :
    pin_letter b = (if 1 ≤ b ∧ b ≤ 4 then some (Char.ofNat ('A'.toNat + (b - 1))) else none)
    ∧ [pin_letter 1, pin_letter 2, pin_letter 3, pin_letter 4]
        = [some 'A', some 'B', some 'C', some 'D']
    ∧ pin_letter 0 = none
    ∧ pin_letter 5 = none
    ∧ describe_pin b =
        [if 1 ≤ b ∧ b ≤ 4 then
          Event.out ("  Interrupt Pin: INTA#"
            ++ String.singleton (Char.ofNat ('A'.toNat + (b - 1))) ++ "\n")
         else Event.out "  Interrupt Pin: Not used or invalid value\n"] := by
  have hletter : pin_letter b
      = (if 1 ≤ b ∧ b ≤ 4 then some (Char.ofNat ('A'.toNat + (b - 1))) else none) := by
    by_cases hb : 1 ≤ b ∧ b ≤ 4
    · rw [if_pos hb]
      obtain ⟨h1, h4⟩ := hb
      interval_cases b <;> rfl
    · rw [if_neg hb]
      unfold pin_letter
      rw [if_neg]
      omega
  refine ⟨hletter, by decide, by decide, by decide, ?_⟩
  unfold describe_pin
  rw [hletter]
  by_cases hb : 1 ≤ b ∧ b ≤ 4
  · simp only [if_pos hb]
  · simp only [if_neg hb]

/-! ## C7: interrupt line -/

/-- C7, the code at irq text `11`: the stream is still in hexadecimal mode, so
the line number is shown as `b`; irq text `0` is described as not assigned or
disabled. -/
theorem C7_irq_shown_in_hex :
    read_irq "/sys/bus/pci/devices/0000:00:02.0" (.content "11\n") =
      say [Event.out "  Interrupt Line: b\n",
           Event.out "    Interrupt assigned to line: b\n"]
    ∧ read_irq "/sys/bus/pci/devices/0000:00:02.0" (.content "0\n") =
      say [Event.out "  Interrupt Line: 0\n",
           Event.out "    Interrupt not assigned or disabled.\n"]
    ∧ read_irq "/sys/bus/pci/devices/0000:00:02.0" (.content "16\n") =
      say [Event.out "  Interrupt Line: 10\n",
           Event.out "    Interrupt assigned to line: 10\n"]
    ∧ list_pci_devices sample_table (some [endpoint_device]) =
      say [Event.out "Address: 0000:00:02.0\n",
           Event.out "  Vendor ID: 0x8086\n",
           Event.out "  Device ID: 0x1237\n",
           Event.out "  Manufacturer: Intel Corporation\n",
           Event.out "  Header Type: 0x80 (Non-Bridge Device)\n",
           Event.out "  Reading BAR0: 00000000c0000004 (parsed as 0xc0000004)\n",
           Event.out "  BAR0: 0xc0000004\n",
           Event.out "    Type: Memory Space\n",
           Event.out "    Prefetchable: No\n",
           Event.out "    Address: 0xc0000000\n",
           Event.err "  BAR file resource1 does not exist for /sys/bus/pci/devices/0000:00:02.0\n",
           Event.err "  BAR file resource2 does not exist for /sys/bus/pci/devices/0000:00:02.0\n",
           Event.err "  BAR file resource3 does not exist for /sys/bus/pci/devices/0000:00:02.0\n",
           Event.err "  BAR file resource4 does not exist for /sys/bus/pci/devices/0000:00:02.0\n",
           Event.err "  BAR file resource5 does not exist for /sys/bus/pci/devices/0000:00:02.0\n",
           Event.out "  Interrupt Line: b\n",
           Event.out "    Interrupt assigned to line: b\n",
           Event.out "  Interrupt Pin: INTA#C\n",
           Event.out "\n"] := by
  refine ⟨by decide, by decide, by decide, by decide⟩

/-! ## C8: vendor lookup -/

/-- The lookup returns the name of the first row with the identifier. -/
theorem find_vendor_name_first (pre : List VendorEntry) (e : VendorEntry)
    (post : List VendorEntry) (vendor_id : Nat)
    (hpre : ∀ x ∈ pre, x.VendorId ≠ vendor_id) (he : e.VendorId = vendor_id) :
    find_vendor_name (pre ++ e :: post) vendor_id = e.VendorName := by
  induction pre with
  | nil => simp [find_vendor_name, he]
  | cons x xs ih =>
    have hx : x.VendorId ≠ vendor_id := hpre x (List.mem_cons_self _ _)
    have hxs : ∀ y ∈ xs, y.VendorId ≠ vendor_id :=
      fun y hy => hpre y (List.mem_cons_of_mem _ hy)
    simp only [List.cons_append, find_vendor_name, if_neg hx]
    exact ih hxs

/-- Without a matching row the lookup returns the fallback text. -/
theorem find_vendor_name_none (tbl : List VendorEntry) (vendor_id : Nat)
    (h : ∀ x ∈ tbl, x.VendorId ≠ vendor_id) :
    find_vendor_name tbl vendor_id = "Unknown Vendor" := by
  induction tbl with
  | nil => rfl
  | cons x xs ih =>
    have hx : x.VendorId ≠ vendor_id := h x (List.mem_cons_self _ _)
    simp only [find_vendor_name, if_neg hx]
    exact ih (fun y hy => h y (List.mem_cons_of_mem _ hy))

/-- The result is the fallback text or the name of a matching row. -/
theorem find_vendor_name_cases (tbl : List VendorEntry) (vendor_id : Nat) :
    (∀ x ∈ tbl, x.VendorId ≠ vendor_id)
    ∨ ∃ e ∈ tbl, e.VendorId = vendor_id ∧ find_vendor_name tbl vendor_id = e.VendorName := by
  induction tbl with
  | nil => left; simp
  | cons x xs ih =>
    by_cases hx : x.VendorId = vendor_id
    · right
      exact ⟨x, List.mem_cons_self _ _, hx, by simp [find_vendor_name, hx]⟩
    · rcases ih with h | ⟨e, hmem, he, hr⟩
      · left
        intro y hy
        rcases List.mem_cons.mp hy with rfl | hy
        · exact hx
        · exact h y hy
      · right
        exact ⟨e, List.mem_cons_of_mem _ hmem, he, by simp only [find_vendor_name, if_neg hx, hr]⟩

/-- C8 as stated fails: in a table whose matching row is named
"Unknown Vendor" the lookup returns "Unknown Vendor" although a row matches. -/
theorem C8_sentinel_clash :
    ¬ (∀ (tbl : List VendorEntry) (vendor_id : Nat),
        find_vendor_name tbl vendor_id = "Unknown Vendor"
          ↔ ∀ x ∈ tbl, x.VendorId ≠ vendor_id) := by
  intro h
  have h1 : find_vendor_name sentinel_table 0x1234 = "Unknown Vendor" := by decide
  exact (h sentinel_table 0x1234).mp h1 ⟨0x1234, "Unknown Vendor"⟩ (by simp [sentinel_table]) rfl

/-- C8, amended: the lookup returns the name of the first row (in table order)
whose identifier matches, and "Unknown Vendor" when no row matches; when no
row of the table is itself named "Unknown Vendor", that result is returned
only when no row matches.  The two scenarios of the spec hold. -/
theorem C8_find_vendor_name (tbl : List VendorEntry) (vendor_id : Nat) :
    (∀ pre e post, tbl = pre ++ e :: post → (∀ x ∈ pre, x.VendorId ≠ vendor_id) →
        e.VendorId = vendor_id → find_vendor_name tbl vendor_id = e.VendorName)
    ∧ ((∀ x ∈ tbl, x.VendorId ≠ vendor_id) → find_vendor_name tbl vendor_id = "Unknown Vendor")
    ∧ ((∀ x ∈ tbl, x.VendorName ≠ "Unknown Vendor") →
        (find_vendor_name tbl vendor_id = "Unknown Vendor" ↔ ∀ x ∈ tbl, x.VendorId ≠ vendor_id))
    ∧ find_vendor_name sample_table 0x8086 = "Intel Corporation"
    ∧ find_vendor_name sample_table 0xFFFF = "Unknown Vendor" := by
  refine ⟨?_, find_vendor_name_none tbl vendor_id, ?_, by decide, by decide⟩
  · rintro pre e post rfl hpre he
    exact find_vendor_name_first pre e post vendor_id hpre he
  · intro hnames
    constructor
    · intro hres
      rcases find_vendor_name_cases tbl vendor_id with h | ⟨e, hmem, -, hr⟩
      · exact h
      · exact absurd (hr ▸ hres) (hnames e hmem)
    · exact find_vendor_name_none tbl vendor_id

/-- C8 on the sample table, looking up `0x10DE` behind the Intel row. -/
theorem C8_find_vendor_name_witness :
    find_vendor_name sample_table 0x10DE = "NVIDIA Corporation"
    ∧ find_vendor_name sample_table 0xFFFF = "Unknown Vendor"
    ∧ (find_vendor_name sample_table 0xFFFF = "Unknown Vendor"
        ↔ ∀ x ∈ sample_table, x.VendorId ≠ 0xFFFF) :=
  ⟨(C8_find_vendor_name sample_table 0x10DE).1 [⟨0x8086, "Intel Corporation"⟩]
      ⟨0x10DE, "NVIDIA Corporation"⟩ [] rfl (by simp) rfl,
   (C8_find_vendor_name sample_table 0xFFFF).2.1 (by simp [sample_table]),
   (C8_find_vendor_name sample_table 0xFFFF).2.2.1 (by simp [sample_table])⟩

/-! ## C10: bridges -/

/-- C10: for a device whose header type has non-zero low seven bits, the
report is the address, vendor id, device id, manufacturer and header type
lines (and the closing blank line) and nothing else, whatever the resource,
irq and config files hold. -/
theorem C10_bridge_report (tbl : List VendorEntry) (d : DirEntry) (vt dt : String)
    (v dv : Int) (h : Nat)
    (hvendor : d.vendor = .content vt) (hdevice : d.device = .content dt)
    (hvne : getline vt ≠ "") (hdne : getline dt ≠ "")
    (hv : stoi (getline vt) 16 = .ok v) (hdv : stoi (getline dt) 16 = .ok dv)
    (hh : read_header_type d.header_type = .ok h) (hbridge : h &&& 0x7F ≠ 0) :
    report_device tbl d =
      say [Event.out ("Address: " ++ d.name ++ "\n"),
           Event.out ("  Vendor ID: 0x" ++ setw_fill 4 '0' (hex (to_ushort v)) ++ "\n"),
           Event.out ("  Device ID: 0x" ++ setw_fill 4 '0' (hex (to_ushort dv)) ++ "\n"),
           Event.out ("  Manufacturer: " ++ find_vendor_name tbl (to_ushort v) ++ "\n"),
           Event.out ("  Header Type: 0x" ++ setw_fill 2 '0' (hex h) ++ " (Bridge Device)" ++ "\n"),
           Event.out "\n"]
    ∧ ∀ (resource : Nat → TextFile) (irq : TextFile) (config : BinFile),
        report_device tbl { d with resource := resource, irq := irq, config := config }
          = report_device tbl d := by
  have hb : is_non_bridge h = false := by simp [is_non_bridge, hbridge]
  have key : ∀ d2 : DirEntry, d2.name = d.name → d2.vendor = d.vendor → d2.device = d.device →
      d2.header_type = d.header_type →
      report_device tbl d2 =
        say [Event.out ("Address: " ++ d.name ++ "\n"),
             Event.out ("  Vendor ID: 0x" ++ setw_fill 4 '0' (hex (to_ushort v)) ++ "\n"),
             Event.out ("  Device ID: 0x" ++ setw_fill 4 '0' (hex (to_ushort dv)) ++ "\n"),
             Event.out ("  Manufacturer: " ++ find_vendor_name tbl (to_ushort v) ++ "\n"),
             Event.out ("  Header Type: 0x" ++ setw_fill 2 '0' (hex h) ++ " (Bridge Device)" ++ "\n"),
             Event.out "\n"] := by
    intro d2 hn h1 h2 h3
    rw [report_device_parsed tbl d2 vt dt v dv (h1.trans hvendor) (h2.trans hdevice) hvne hdne
      hv hdv]
    unfold report_header
    rw [h3, hh]
    simp only [hb, Bool.false_eq_true, if_false, say_andThen, identity_lines, hn, header_line]
    rfl
  refine ⟨key d rfl rfl rfl rfl, ?_⟩
  intro resource irq config
  rw [key d rfl rfl rfl rfl]
  exact key _ rfl rfl rfl rfl

/-- C10 at the bridge with header type `0x81`, which has six resource files,
an irq file and a config file. -/
theorem C10_bridge_report_witness :
    report_device sample_table bridge_device =
      say [Event.out ("Address: " ++ bridge_device.name ++ "\n"),
           Event.out ("  Vendor ID: 0x" ++ setw_fill 4 '0' (hex (to_ushort 0x8086)) ++ "\n"),
           Event.out ("  Device ID: 0x" ++ setw_fill 4 '0' (hex (to_ushort 0x9d10)) ++ "\n"),
           Event.out ("  Manufacturer: "
             ++ find_vendor_name sample_table (to_ushort 0x8086) ++ "\n"),
           Event.out ("  Header Type: 0x" ++ setw_fill 2 '0' (hex 0x81) ++ " (Bridge Device)" ++ "\n"),
           Event.out "\n"]
    ∧ ∀ (resource : Nat → TextFile) (irq : TextFile) (config : BinFile),
        report_device sample_table
            { bridge_device with resource := resource, irq := irq, config := config }
          = report_device sample_table bridge_device :=
  C10_bridge_report sample_table bridge_device "0x8086\n" "0x9d10\n" 0x8086 0x9d10 0x81
    rfl rfl (by decide) (by decide) rfl rfl rfl (by decide)

/-! ## C9: unparsable fields -/

end PciList
